import Mathlib

set_option autoImplicit false

/-!
Verification of the session/authentication layer of the Visier Python
connector: a shallow embedding of `visier/connector/sessions.py`,
`authentication.py`, `table.py` and `callback.py`, with theorems that
settle the specified behaviour of `VisierSession.execute`, the connect
handshakes, the credential constructors, the result-table decoder, the
PKCE pair generator and the header builder.

External library behaviour that the code relies on is embedded where it
matters: `requests.Response.ok` and `raise_for_status` raise (resp. are
false) exactly for status codes 400..599, `json.loads` and
`hashlib.sha256` are abstract parameters, Python `dict` assignment is an
insertion-ordered association-list update, and the truthiness test
`not x` on an optional string is false exactly for `None` and `""`.
-/

/-- An HTTP response as the connector observes it: the status code and the
body text. These are the only `requests.Response` fields the session layer
reads (`status_code`, `text`, `ok`). -/
structure Resp where
  status_code : Nat
  text : String
deriving DecidableEq, Repr

/-- `requests.Response.raise_for_status` raises `HTTPError` exactly for
client errors (400..499) and server errors (500..599). -/
def raise_for_status_raises (s : Nat) : Bool :=
  decide (400 ≤ s) && decide (s < 600)

/-- `requests.Response.ok`: true iff `raise_for_status` would not raise,
i.e. the status code is outside 400..599. In particular every 2xx and
every 3xx response is `ok`. -/
def Resp.ok (r : Resp) : Bool :=
  !raise_for_status_raises r.status_code

/-- Python truthiness of an optional string: `not x` is true exactly for
`None` and the empty string. -/
def falsy : Option String → Bool
  | none => true
  | some s => s.isEmpty

/-- Terminal outcome of one `VisierSession.execute` call. -/
inductive ExecOutcome where
  /-- The loop exited with `is_ok` and `execute` returned the response. -/
  | success (r : Resp)
  /-- `raise QueryExecutionError(result.status_code, result.text)`. -/
  | queryError (status : Nat) (text : String)
  /-- `SessionContext.__init__` ran `self._session.headers.update(...)` with
  `self._session = None` (session never connected): Python `AttributeError`. -/
  | attributeError
  /-- The `while` loop exited without a successful result (unreachable from
  `execute`, which starts with `num_attempts_left = 2`). -/
  | loopFellThrough
deriving DecidableEq, Repr

/-- Observable trace of one `execute` call: its outcome, how many times the
caller-supplied function was invoked, and how many times `self._connect()`
was invoked. -/
structure ExecTrace where
  outcome : ExecOutcome
  builderCalls : Nat
  reconnects : Nat
deriving DecidableEq, Repr

/-- The `while not is_ok and num_attempts_left > 0` loop of
`VisierSession.execute` (sessions.py lines 133-145). The fuel argument is
`num_attempts_left` on entry to the loop test; the pattern `n+1` reflects
the in-loop decrement, so `n` is `num_attempts_left` at the 401 check.
`call calls` is the response the caller-supplied function returns on its
(0-based) `calls`-th invocation. A reconnect is assumed to succeed; it
leaves the session connected. -/
def executeLoop (call : Nat → Resp) : Nat → Bool → Nat → Nat → ExecTrace
  | 0, _, calls, recs => ⟨.loopFellThrough, calls, recs⟩
  | n + 1, connected, calls, recs =>
    if !connected then ⟨.attributeError, calls, recs⟩
    else
      let result := call calls
      if result.ok then ⟨.success result, calls + 1, recs⟩
      else if result.status_code = 401 ∧ 0 < n then
        executeLoop call n true (calls + 1) (recs + 1)
      else ⟨.queryError result.status_code result.text, calls + 1, recs⟩

/-- `VisierSession.execute`: run the loop with `num_attempts_left = 2` on a
session that is connected (`self._session` is a `Session`) or not
(`self._session is None`). -/
def execute (call : Nat → Resp) (connected : Bool) : ExecTrace :=
  executeLoop call 2 connected 0 0

/-- Modelled from the amended claim C1's words (with success meaning
`requests`' `ok`, i.e. status outside 400..599, rather than 2xx): the
expected trace of `execute` on a connected session. If the first response
is ok it is returned with one builder call and no reconnect; if the first
response is a 401, reconnect once, call the builder once more and return
the second response if ok, else raise with the second response's status
and body; any other first failure raises with the first response's status
and body. -/
def executeSpec (call : Nat → Resp) : ExecTrace :=
  if (call 0).ok then ⟨.success (call 0), 1, 0⟩
  else if (call 0).status_code = 401 then
    if (call 1).ok then ⟨.success (call 1), 2, 1⟩
    else ⟨.queryError (call 1).status_code (call 1).text, 2, 1⟩
  else ⟨.queryError (call 0).status_code (call 0).text, 1, 0⟩

/-- C1 (counterexample): the claim reads success as "2xx" and predicts that
any other non-2xx, non-401 first response raises `QueryExecutionError`.
A first response with status 302 is not 2xx and not 401, yet `execute`
returns it as a success (requests' `ok` is true for every status below
400), with no reconnect. -/
theorem C1_counterexample :
    execute (fun _ => ⟨302, "redirect"⟩) true
        = ⟨.success ⟨302, "redirect"⟩, 1, 0⟩
      ∧ (execute (fun _ => ⟨302, "redirect"⟩) true).outcome
          ≠ .queryError 302 "redirect"
      ∧ ¬(200 ≤ 302 ∧ 302 < 300) ∧ 302 ≠ 401 := by
  refine ⟨rfl, ?_, by decide, by decide⟩
  decide

/-- C1 (amended): with "2xx" corrected to requests' success notion (`ok`,
status outside 400..599): on a connected session, a first ok response is
returned with no reconnect; a 401 first response triggers exactly one
reconnect and exactly one further builder invocation, returning the second
response if ok and raising `QueryExecutionError` with the second
response's status and body otherwise; any other first failure raises
`QueryExecutionError` with the first response's status and body, with no
reconnect. In all cases the builder runs at most twice and the reconnect
happens at most once. -/
theorem C1_amended (call : Nat → Resp) :
    execute call true = executeSpec call
      ∧ ∀ connected : Bool,
          (execute call connected).builderCalls ≤ 2
            ∧ (execute call connected).reconnects ≤ 1 := by
  constructor
  · by_cases h0 : (call 0).ok
    · simp [execute, executeLoop, executeSpec, h0]
    · by_cases h401 : (call 0).status_code = 401
      · by_cases h1 : (call 1).ok
        · simp [execute, executeLoop, executeSpec, h0, h401, h1]
        · simp [execute, executeLoop, executeSpec, h0, h401, h1]
      · simp [execute, executeLoop, executeSpec, h0, h401]
  · intro connected
    cases connected
    · simp [execute, executeLoop]
    · by_cases h0 : (call 0).ok
      · simp [execute, executeLoop, h0]
      · by_cases h401 : (call 0).status_code = 401
        · by_cases h1 : (call 1).ok
          · simp [execute, executeLoop, h0, h401, h1]
          · simp [execute, executeLoop, h0, h401, h1]
        · simp [execute, executeLoop, h0, h401]

/-- C2 (counterexample): the claim says `execute` on an unconnected session
first connects and then behaves like on a freshly connected session. In
the code, `execute` never connects: with `self._session = None` the
`SessionContext` constructor dereferences the absent transport handle
(`self._session.headers.update`) and fails before the caller's function is
ever invoked, so the unconnected trace differs from the connected one. -/
theorem C2_counterexample :
    execute (fun _ => ⟨200, "payload"⟩) false = ⟨.attributeError, 0, 0⟩
      ∧ execute (fun _ => ⟨200, "payload"⟩) true
          = ⟨.success ⟨200, "payload"⟩, 1, 0⟩
      ∧ execute (fun _ => ⟨200, "payload"⟩) false
          ≠ execute (fun _ => ⟨200, "payload"⟩) true := by
  refine ⟨rfl, rfl, ?_⟩
  decide

/-- C2 (amended): `execute` performs no implicit connect. On an unconnected
session it fails while building the `SessionContext` (an `AttributeError`
on the absent transport handle), invoking neither the connect handshake nor
the caller's function; connection is established only eagerly, by the
context-manager entry `__enter__`. -/
theorem C2_amended (call : Nat → Resp) :
    execute call false = ⟨.attributeError, 0, 0⟩ := rfl

/-- The single error kind the credential constructors raise:
`ValueError("ERROR: Missing required credentials. ...")`, the spec's
`ConfigurationError` of kind "missing credentials". -/
inductive AuthError where
  | missingCredentials (msg : String)
deriving DecidableEq, Repr

/-- `Authentication` (authentication.py): the common credential fields.
Required fields are stored as the validated strings; `target_tenant_id`
stays optional. -/
structure Authentication where
  host : String
  api_key : String
  target_tenant_id : Option String
deriving DecidableEq, Repr

/-- `Authentication.__init__`: raises unless `api_key` and `host` are
truthy (fails on `None` and on `""`), checked in this order at
construction time. -/
def mkAuthentication (host api_key target_tenant_id : Option String) :
    Except AuthError Authentication :=
  if falsy api_key || falsy host then
    .error (.missingCredentials
      "Please provide host and api_key. target_tenant_id is optional.")
  else
    .ok ⟨host.getD "", api_key.getD "", target_tenant_id⟩

/-- `Basic` (authentication.py): the password-based credential. -/
structure Basic where
  toAuthentication : Authentication
  vanity : Option String
  username : String
  password : String
deriving DecidableEq, Repr

/-- `Basic.__init__`: runs `Authentication.__init__` first (host/api_key
check), then raises unless `username` and `password` are truthy. -/
def mkBasic (username password api_key host vanity target_tenant_id : Option String) :
    Except AuthError Basic :=
  match mkAuthentication host api_key target_tenant_id with
  | .error e => .error e
  | .ok base =>
    if falsy username || falsy password then
      .error (.missingCredentials
        "Please provide username, password, api_key, and host.")
    else
      .ok ⟨base, vanity, username.getD "", password.getD ""⟩

/-- `OAuth2` (authentication.py): the OAuth2 credential. `client_secret`,
`username`, `password` and `redirect_uri` are optional values (they may be
`None`); only `client_id` is validated beyond the common fields. -/
structure OAuth2 where
  toAuthentication : Authentication
  client_secret : Option String
  client_id : String
  username : Option String
  password : Option String
  redirect_uri : Option String
deriving DecidableEq, Repr

/-- `OAuth2.__init__`: runs `Authentication.__init__` first (host/api_key
check), then raises unless `client_id` is truthy. -/
def mkOAuth2 (host api_key client_id client_secret username password
    redirect_uri target_tenant_id : Option String) :
    Except AuthError OAuth2 :=
  match mkAuthentication host api_key target_tenant_id with
  | .error e => .error e
  | .ok base =>
    if falsy client_id then
      .error (.missingCredentials
        "Please provide host, api_key and client_id. redirect_uri is optional.")
    else
      .ok ⟨base, client_secret, client_id.getD "", username, password, redirect_uri⟩

/-- Did construction fail with the missing-credentials error? -/
def isMissingCredentials {α : Type} : Except AuthError α → Bool
  | .error (.missingCredentials _) => true
  | .ok _ => false

/-- Did construction succeed? -/
def constructionOk {α : Type} : Except AuthError α → Bool
  | .error _ => false
  | .ok _ => true

/-- C3: for both credential variants, construction raises the
missing-credentials validation error exactly when some variant-required
field is empty or absent, and succeeds exactly when all of them are
non-empty. Required: host and api_key for both variants, plus username and
password for the password variant, plus client_id for the OAuth2 variant.
The check runs inside the constructor, so it cannot be deferred to first
use. -/
theorem C3_credential_validation :
    (∀ u p a h v t,
        isMissingCredentials (mkBasic u p a h v t)
            = (falsy u || falsy p || falsy a || falsy h)
          ∧ constructionOk (mkBasic u p a h v t)
              = (!falsy u && !falsy p && !falsy a && !falsy h))
      ∧ (∀ h a cid cs u p r t,
          isMissingCredentials (mkOAuth2 h a cid cs u p r t)
              = (falsy h || falsy a || falsy cid)
            ∧ constructionOk (mkOAuth2 h a cid cs u p r t)
                = (!falsy h && !falsy a && !falsy cid)) := by
  constructor
  · intro u p a h v t
    cases hu : falsy u <;> cases hp : falsy p <;> cases ha : falsy a <;>
      cases hh : falsy h <;>
      simp [mkBasic, mkAuthentication, isMissingCredentials, constructionOk,
        hu, hp, ha, hh]
  · intro h a cid cs u p r t
    cases hh : falsy h <;> cases ha : falsy a <;> cases hc : falsy cid <;>
      simp [mkOAuth2, mkAuthentication, isMissingCredentials, constructionOk,
        hh, ha, hc]

/-- Error raised while constructing a `ResultTable` (table.py). -/
inductive TableInitError where
  /-- `next(gen_f)` on an already-exhausted iterator: the body had zero
  lines (`StopIteration`). -/
  | stopIteration
  /-- `json.loads` failed on the header line. -/
  | jsonDecodeError (msg : String)
deriving DecidableEq, Repr

/-- `ResultTable` (table.py): the parsed header and the backing line
iterator, already advanced past the header line. `J` is the type of
parsed JSON values. -/
structure ResultTable (J : Type) where
  header : J
  generator : List String
deriving DecidableEq, Repr

/-- `ResultTable.__init__`: `self.header = json.loads(next(gen_f))` — the
header line is consumed and parsed eagerly at construction; the rest of
the iterator is stored. `json_loads` is the abstract JSON parser. -/
def ResultTable.init {J : Type} (json_loads : String → Except String J)
    (gen_f : List String) : Except TableInitError (ResultTable J) :=
  match gen_f with
  | [] => .error .stopIteration
  | line :: rest =>
    match json_loads line with
    | .error e => .error (.jsonDecodeError e)
    | .ok h => .ok ⟨h, rest⟩

/-- `for line in self._generator: yield json.loads(line)` applied to every
remaining line. -/
def consumeLines {J : Type} (json_loads : String → Except String J) :
    List String → List (Except String J)
  | [] => []
  | line :: rest => json_loads line :: consumeLines json_loads rest

/-- Fully consuming the `rows()` generator: the sequence of yielded values
together with the table afterwards — the backing iterator is exhausted,
so the generator cannot be replayed. -/
def ResultTable.consumeRows {J : Type} (json_loads : String → Except String J)
    (t : ResultTable J) : List (Except String J) × ResultTable J :=
  (consumeLines json_loads t.generator, ⟨t.header, []⟩)

/-- C4: constructing the table decoder from an input with zero lines fails
at construction time — `next()` on the empty iterator raises before any
field is set (the spec's `DecodeError` for an empty body). -/
theorem C4_empty_input (J : Type) (json_loads : String → Except String J) :
    ResultTable.init json_loads [] = .error .stopIteration := rfl

theorem consumeLines_eq_map {J : Type} (json_loads : String → Except String J)
    (lines : List String) :
    consumeLines json_loads lines = lines.map json_loads := by
  induction lines with
  | nil => rfl
  | cons l rest ih => simp [consumeLines, ih]

/-- C8: for a non-empty input whose first line parses to `h`, construction
succeeds, the header is exactly the parsed first line, `rows()` yields
exactly the parsed remaining lines in their original order, and the row
sequence is single-pass — after one full consumption, consuming `rows()`
again yields the empty sequence. -/
theorem C8_table_rows {J : Type} (json_loads : String → Except String J)
    (first : String) (rest : List String) (h : J)
    (hp : json_loads first = .ok h) :
    ∃ t : ResultTable J,
      ResultTable.init json_loads (first :: rest) = .ok t
        ∧ t.header = h
        ∧ (t.consumeRows json_loads).fst = rest.map json_loads
        ∧ ((t.consumeRows json_loads).snd.consumeRows json_loads).fst = [] := by
  refine ⟨⟨h, rest⟩, ?_, rfl, ?_, rfl⟩
  · simp [ResultTable.init, hp]
  · simp [ResultTable.consumeRows, consumeLines_eq_map]

/-- C8 witness: the identity parser on the input
`["header", "r1", "r2"]`. -/
theorem C8_table_rows_witness :
    ∃ t : ResultTable String,
      ResultTable.init (fun s => Except.ok s) ["header", "r1", "r2"] = .ok t
        ∧ t.header = "header"
        ∧ (t.consumeRows (fun s => Except.ok s)).fst
            = ["r1", "r2"].map (fun s => Except.ok s)
        ∧ ((t.consumeRows (fun s => Except.ok s)).snd.consumeRows
            (fun s => Except.ok s)).fst = [] :=
  C8_table_rows (fun s => Except.ok s) "header" ["r1", "r2"] "header" rfl

/-- Outcome of `VisierSession._connect_basic` given the response of the
POST to `{host}/v1/admin/visierSecureToken`. -/
inductive BasicConnectOutcome where
  /-- `raise QueryExecutionError(500, "Vanity name is required ...")` —
  the distinguished vanity-required connect failure. -/
  | vanityRequired (status : Nat) (msg : String)
  /-- `result.raise_for_status()` raised `requests.HTTPError` — the
  generic connect failure. -/
  | httpError (status : Nat)
  /-- `update_session(result.text)`: a fresh transport with the response
  body bound as the `VisierASIDToken` cookie and the api key header. -/
  | connected (asid_token : String) (api_key : String)
deriving DecidableEq, Repr

/-- `VisierSession._connect_basic` (sessions.py lines 178-194), as a
function of the credential and the token-issuance response: a 500 with no
vanity name on the credential raises the distinguished error; otherwise
`raise_for_status` raises for any 400..599 status; otherwise the response
body text becomes the session token. -/
def connect_basic (auth : Basic) (result : Resp) : BasicConnectOutcome :=
  if result.status_code = 500 ∧ falsy auth.vanity then
    .vanityRequired result.status_code
      "Vanity name is required for logging on to this tenant"
  else if raise_for_status_raises result.status_code then
    .httpError result.status_code
  else
    .connected result.text auth.toAuthentication.api_key

/-- C5 (counterexample): the claim predicts that any non-2xx status other
than the vanity case fails with the generic connect error. A 302 response
is non-2xx, yet `raise_for_status` does not raise for it, and
`_connect_basic` binds the response body as the session token. -/
theorem C5_counterexample :
    connect_basic ⟨⟨"https://example.com", "key", none⟩, none, "u", "p"⟩
        ⟨302, "the-token"⟩ = .connected "the-token" "key"
      ∧ connect_basic ⟨⟨"https://example.com", "key", none⟩, none, "u", "p"⟩
          ⟨302, "the-token"⟩ ≠ .httpError 302
      ∧ ¬(200 ≤ 302 ∧ 302 < 300) := by
  refine ⟨rfl, ?_, by decide⟩
  decide

/-- C5 (amended): in the password-based handshake, a 500 response with no
vanity name on the credential fails with the distinguished vanity-required
error; any other status in 400..599 (including 500 with a vanity name)
fails with the generic connect error; and any status outside 400..599
(every 2xx, but also every 1xx and 3xx) binds the response body text as
the session token. -/
theorem C5_amended (auth : Basic) (s : Nat) (b : String) :
    (s = 500 → falsy auth.vanity = true →
        connect_basic auth ⟨s, b⟩
          = .vanityRequired 500 "Vanity name is required for logging on to this tenant")
      ∧ (400 ≤ s → s < 600 → ¬(s = 500 ∧ falsy auth.vanity = true) →
          connect_basic auth ⟨s, b⟩ = .httpError s)
      ∧ (¬(400 ≤ s ∧ s < 600) →
          connect_basic auth ⟨s, b⟩
            = .connected b auth.toAuthentication.api_key) := by
  refine ⟨?_, ?_, ?_⟩
  · intro hs hv
    subst hs
    simp [connect_basic, hv]
  · intro h4 h6 hnv
    simp [connect_basic, raise_for_status_raises, hnv, h4, h6]
  · intro hout
    have h1 : ¬(s = 500 ∧ falsy auth.vanity = true) := by
      rintro ⟨hs, -⟩
      exact hout ⟨by omega, by omega⟩
    simp [connect_basic, raise_for_status_raises, h1, hout]

/-- C5 witness: a 500 response with no vanity name gives the distinguished
vanity-required error. -/
theorem C5_amended_witness :
    connect_basic ⟨⟨"https://example.com", "key", none⟩, none, "u", "p"⟩
        ⟨500, "oops"⟩
      = .vanityRequired 500 "Vanity name is required for logging on to this tenant" :=
  (C5_amended ⟨⟨"https://example.com", "key", none⟩, none, "u", "p"⟩
    500 "oops").1 rfl rfl

/-- A Python `dict` with string keys and values, as an insertion-ordered
association list (keys unique). -/
abbrev Dict := List (String × String)

/-- `d[k] = v`: overwrite the value in place if the key is present,
otherwise append the new entry at the end. -/
def dictSet (d : Dict) (k v : String) : Dict :=
  if d.any (fun p => p.1 = k) then
    d.map (fun p => if p.1 = k then (k, v) else p)
  else
    d ++ [(k, v)]

/-- `d.get(k)`: the value under the first matching key. -/
def dictLookup (d : Dict) (k : String) : Option String :=
  (d.find? (fun p => p.1 = k)).map (fun p => p.2)

/-- The body mutation `VisierSession._request_token` performs before
POSTing to `{host}/v1/auth/oauth2/token` (sessions.py lines 213-214): if
the credential carries a truthy `redirect_uri`, it is added to the body —
for any grant type, since both connect sub-flows go through this
helper. -/
def request_token_body (auth : OAuth2) (body : Dict) : Dict :=
  if falsy auth.redirect_uri then body
  else dictSet body "redirect_uri" (auth.redirect_uri.getD "")

/-- The token-request body of the authorization-code grant: the literal
dict built by `get_token` inside `_connect_auth_code`, as mutated by
`_request_token`. -/
def auth_code_grant_body (auth : OAuth2) (code code_verifier : String) : Dict :=
  request_token_body auth
    [("grant_type", "authorization_code"),
     ("client_id", auth.client_id),
     ("scope", "read"),
     ("code", code),
     ("code_verifier", code_verifier)]

/-- The token-request body of the password grant: the literal dict built
by `_connect_oauth_password`, as mutated by `_request_token`. (The
password grant is selected by `_connect_oauth` only when username and
password are truthy.) -/
def password_grant_body (auth : OAuth2) : Dict :=
  request_token_body auth
    [("grant_type", "password"),
     ("client_id", auth.client_id),
     ("scope", "read"),
     ("username", auth.username.getD ""),
     ("password", auth.password.getD "")]

/-- `VisierSession._connect_oauth`: the password grant sub-flow runs iff
both username and password are truthy on the credential. -/
def oauth_uses_password_grant (auth : OAuth2) : Bool :=
  !falsy auth.username && !falsy auth.password

/-- C6 (counterexample): the claim says the password-grant body contains
no `redirect_uri`. For an OAuth2 credential with username, password and a
redirect URI set — which selects the password grant — the shared token
helper appends `redirect_uri` to the password-grant body too. -/
theorem C6_counterexample :
    oauth_uses_password_grant
        ⟨⟨"https://example.com", "key", none⟩, none, "cid", some "u", some "p",
          some "http://localhost:5000/cb"⟩ = true
      ∧ ("redirect_uri", "http://localhost:5000/cb")
          ∈ password_grant_body
            ⟨⟨"https://example.com", "key", none⟩, none, "cid", some "u", some "p",
              some "http://localhost:5000/cb"⟩ := by
  constructor
  · rfl
  · decide

/-- C6 (amended): the token request body is determined by the grant type,
except that `redirect_uri` is appended by the shared token helper for
both grants exactly when the credential carries a truthy redirect URI.
The authorization-code grant body contains `grant_type=authorization_code`,
`code`, `code_verifier` and `client_id`; the password grant body contains
`grant_type=password`, `username`, `password` and `client_id`. -/
theorem C6_amended (auth : OAuth2) (code code_verifier : String) :
    (("grant_type", "authorization_code")
        ∈ auth_code_grant_body auth code code_verifier
      ∧ ("code", code) ∈ auth_code_grant_body auth code code_verifier
      ∧ ("code_verifier", code_verifier)
          ∈ auth_code_grant_body auth code code_verifier
      ∧ ("client_id", auth.client_id)
          ∈ auth_code_grant_body auth code code_verifier)
      ∧ (("grant_type", "password") ∈ password_grant_body auth
        ∧ ("username", auth.username.getD "") ∈ password_grant_body auth
        ∧ ("password", auth.password.getD "") ∈ password_grant_body auth
        ∧ ("client_id", auth.client_id) ∈ password_grant_body auth)
      ∧ dictLookup (auth_code_grant_body auth code code_verifier) "redirect_uri"
          = (if falsy auth.redirect_uri then none
             else some (auth.redirect_uri.getD ""))
      ∧ dictLookup (password_grant_body auth) "redirect_uri"
          = (if falsy auth.redirect_uri then none
             else some (auth.redirect_uri.getD "")) := by
  by_cases hr : falsy auth.redirect_uri
  · simp [auth_code_grant_body, password_grant_body, request_token_body,
      dictLookup, List.find?, hr]
  · simp [auth_code_grant_body, password_grant_body, request_token_body,
      dictSet, dictLookup, List.find?, hr]

/-- The urlsafe base64 alphabet used by `base64.urlsafe_b64encode`. -/
def b64urlAlphabet : List Char :=
  "ABCDEFGHIJKLMNOPQRSTUVWXYZabcdefghijklmnopqrstuvwxyz0123456789-_".toList

/-- The alphabet character for a 6-bit group. -/
def b64Char (i : Nat) : Char :=
  b64urlAlphabet.getD (i % 64) 'A'

/-- `base64.urlsafe_b64encode` on a byte list: each 3-byte group becomes
four alphabet characters; a trailing 1-byte or 2-byte group becomes two
or three characters followed by `'='` padding to a multiple of four. -/
def urlsafe_b64encode : List Nat → List Char
  | [] => []
  | [b0] => [b64Char (b0 / 4), b64Char (b0 % 4 * 16), '=', '=']
  | [b0, b1] => [b64Char (b0 / 4), b64Char (b0 % 4 * 16 + b1 / 16),
                 b64Char (b1 % 16 * 4), '=']
  | b0 :: b1 :: b2 :: rest =>
    b64Char (b0 / 4) :: b64Char (b0 % 4 * 16 + b1 / 16)
      :: b64Char (b1 % 16 * 4 + b2 / 64) :: b64Char (b2 % 64)
      :: urlsafe_b64encode rest

/-- Python `str.rstrip("=")`: remove every trailing `'='` character. -/
def rstripEq (s : List Char) : List Char :=
  (s.reverse.dropWhile (fun c => c == '=')).reverse

/-- `mk_pkce_pair` (sessions.py lines 228-233) with its two external calls
as parameters: `token_urlsafe_64` is the random verifier drawn by
`secrets.token_urlsafe(64)`, and `sha256_digest` is the byte list
`hashlib.sha256(verifier.encode()).digest()`. The challenge is the
urlsafe base64 encoding of the digest with trailing `'='` stripped. -/
def mk_pkce_pair (sha256_digest : String → List Nat)
    (token_urlsafe_64 : String) : String × List Char :=
  let code_verifier := token_urlsafe_64
  let code_challenge :=
    rstripEq (urlsafe_b64encode (sha256_digest code_verifier))
  (code_verifier, code_challenge)

/-- Modelled from the spec's words: "base64url-encoded without padding" —
the encoder that never emits `'='` at all. -/
def b64urlNoPad : List Nat → List Char
  | [] => []
  | [b0] => [b64Char (b0 / 4), b64Char (b0 % 4 * 16)]
  | [b0, b1] => [b64Char (b0 / 4), b64Char (b0 % 4 * 16 + b1 / 16),
                 b64Char (b1 % 16 * 4)]
  | b0 :: b1 :: b2 :: rest =>
    b64Char (b0 / 4) :: b64Char (b0 % 4 * 16 + b1 / 16)
      :: b64Char (b1 % 16 * 4 + b2 / 64) :: b64Char (b2 % 64)
      :: b64urlNoPad rest

theorem b64Char_ne_pad (i : Nat) : b64Char i ≠ '=' := by
  have hlt : i % 64 < 64 := Nat.mod_lt _ (by norm_num)
  have hall : ∀ j : Fin 64, b64urlAlphabet.getD j.val 'A' ≠ '=' := by decide
  simpa [b64Char] using hall ⟨i % 64, hlt⟩

theorem b64Char_beq_pad (i : Nat) : (b64Char i == '=') = false :=
  beq_eq_false_iff_ne.mpr (b64Char_ne_pad i)

theorem b64urlNoPad_ne_nil : ∀ bs : List Nat, bs ≠ [] → b64urlNoPad bs ≠ []
  | [], h => absurd rfl h
  | [_], _ => by simp [b64urlNoPad]
  | [_, _], _ => by simp [b64urlNoPad]
  | _ :: _ :: _ :: _, _ => by simp [b64urlNoPad]

theorem rstripEq_append (l1 l2 : List Char) :
    rstripEq (l1 ++ l2)
      = if rstripEq l2 = [] then rstripEq l1 else l1 ++ rstripEq l2 := by
  simp only [rstripEq, List.reverse_append, List.dropWhile_append]
  by_cases h : (l2.reverse.dropWhile (fun c => c == '=')).isEmpty
  · rw [if_pos h, if_pos]
    rw [List.isEmpty_iff] at h
    simp [h]
  · rw [if_neg h, if_neg]
    · simp
    · rw [List.isEmpty_iff] at h
      simpa using h

theorem rstripEq_no_pad_chunk (c1 c2 c3 c4 : Nat) :
    rstripEq [b64Char c1, b64Char c2, b64Char c3, b64Char c4]
      = [b64Char c1, b64Char c2, b64Char c3, b64Char c4] := by
  simp [rstripEq, List.dropWhile, b64Char_beq_pad]

/-- Stripping the `'='` padding from the padded urlsafe base64 encoding
yields exactly the padding-free base64url encoding, for every byte
list. -/
theorem rstrip_encode_eq_noPad :
    ∀ bs : List Nat, rstripEq (urlsafe_b64encode bs) = b64urlNoPad bs
  | [] => by simp [urlsafe_b64encode, b64urlNoPad, rstripEq]
  | [b0] => by
    simp [urlsafe_b64encode, b64urlNoPad, rstripEq, List.dropWhile,
      b64Char_beq_pad]
  | [b0, b1] => by
    simp [urlsafe_b64encode, b64urlNoPad, rstripEq, List.dropWhile,
      b64Char_beq_pad]
  | b0 :: b1 :: b2 :: rest => by
    have ih := rstrip_encode_eq_noPad rest
    have hchunk :
        urlsafe_b64encode (b0 :: b1 :: b2 :: rest)
          = [b64Char (b0 / 4), b64Char (b0 % 4 * 16 + b1 / 16),
             b64Char (b1 % 16 * 4 + b2 / 64), b64Char (b2 % 64)]
              ++ urlsafe_b64encode rest := rfl
    rw [hchunk, rstripEq_append, ih]
    by_cases hrest : rest = []
    · subst hrest
      simp [b64urlNoPad, urlsafe_b64encode, rstripEq_no_pad_chunk, rstripEq,
        b64Char_ne_pad, b64Char_beq_pad]
    · rw [if_neg (b64urlNoPad_ne_nil rest hrest)]
      simp [b64urlNoPad]

/-- C7: for every PKCE pair the generator produces — i.e. for every random
verifier drawn by `secrets.token_urlsafe(64)` and whatever digest
`hashlib.sha256` assigns to it — the challenge equals the SHA-256 digest
of the verifier, base64url-encoded with all trailing `'='` padding
removed, which is exactly the padding-free base64url encoding of that
digest. -/
theorem C7_pkce_pair (sha256_digest : String → List Nat)
    (token_urlsafe_64 : String) :
    (mk_pkce_pair sha256_digest token_urlsafe_64).2
      = rstripEq (urlsafe_b64encode
          (sha256_digest (mk_pkce_pair sha256_digest token_urlsafe_64).1))
      ∧ (mk_pkce_pair sha256_digest token_urlsafe_64).2
          = b64urlNoPad
              (sha256_digest (mk_pkce_pair sha256_digest token_urlsafe_64).1) := by
  refine ⟨rfl, ?_⟩
  simp [mk_pkce_pair, rstrip_encode_eq_noPad]

/-- State of the local callback listener (callback.py): whether the
background server thread is serving. -/
structure CallbackServerState where
  running : Bool
deriving DecidableEq, Repr

/-- `CallbackServer.start`: `make_server` binds the socket and
`serve_forever` runs on a background thread. -/
def callbackStart : CallbackServerState := ⟨true⟩

/-- `CallbackServer.stop`: `self.server.shutdown()` then
`self.flask_thread.join()`, then both handles are cleared; a stop on an
already-stopped server is a no-op. Either way the server ends not
running. -/
def callbackStop (_s : CallbackServerState) : CallbackServerState := ⟨false⟩

/-- Python `with CallbackServer(binding) as svr: body` — `__enter__`
starts the server, the body runs to its outcome (normal return or raised
exception, as an `Except`), and `__exit__` stops the server on every exit
path. -/
def withCallbackServer {E A : Type} (body : CallbackServerState → Except E A) :
    Except E A × CallbackServerState :=
  let svr := callbackStart
  (body svr, callbackStop svr)

/-- Exceptions the authorization-code flow can raise. -/
inductive AuthCodeError where
  /-- `OAuthConnectError` raised from the `queue.Empty` timeout of
  `svr.queue.get(block=True, timeout=self._auth_code_flow_timeout)`. -/
  | oauthTimeout (msg : String)
  /-- `requests.HTTPError` from `raise_for_status` inside
  `_request_token` during the code-for-token exchange. -/
  | httpError (status : Nat)
deriving DecidableEq, Repr

/-- `VisierSession._connect_auth_code` (sessions.py lines 245-267) with
its external interactions as parameters: `wait` is the outcome of the
bounded blocking wait on the listener's queue — `some code` when the
listener delivered an authorization code within the authorization-flow
timeout, `none` when the wait expired with `queue.Empty`; `exchange code`
is the outcome of `_request_token` on the received code (error = HTTP
status of a failed exchange, ok = the access token). The result pairs the
flow outcome with the final listener state. -/
def connect_auth_code (wait : Option String)
    (exchange : String → Except Nat String) :
    Except AuthCodeError String × CallbackServerState :=
  withCallbackServer (fun _svr =>
    match wait with
    | none => .error (.oauthTimeout "Timed out waiting for OAuth2 auth code")
    | some code =>
      match exchange code with
      | .error status => .error (.httpError status)
      | .ok token => .ok token)

/-- C9: the callback listener ends stopped on every exit path of the
authorization-code flow — success, timeout, and token-exchange failure
alike — and when no authorization code arrives within the
authorization-flow timeout the flow raises the `OAuthConnectError`
timeout error. -/
theorem C9_auth_code_flow :
    (∀ (wait : Option String) (exchange : String → Except Nat String),
        ((connect_auth_code wait exchange).2).running = false)
      ∧ ∀ exchange : String → Except Nat String,
          (connect_auth_code none exchange).1
            = .error (.oauthTimeout "Timed out waiting for OAuth2 auth code") :=
  ⟨fun _ _ => rfl, fun _ => rfl⟩

/-- `TARGET_TENANT_ID` (constants.py): the tenant-override header key. -/
def TARGET_TENANT_ID : String := "TargetTenantID"

/-- The heap of live header dictionaries: `mk_headers` mutates its
argument in place, so dictionaries are modelled as heap cells addressed
by index (Python object identity). -/
abbrev HeaderHeap := List Dict

/-- `SessionContext.mk_headers` (sessions.py lines 85-91) over the heap.
`headers` is `some r` when the caller passed the dictionary at address
`r`, and `none` when the argument defaulted to `None` — then a fresh
empty dictionary is allocated. If the session's target tenant id `is not
None` (even when empty), `headers[TARGET_TENANT_ID] = self._target_tenant_id`
assigns into that same dictionary; the function returns the address of
the dictionary it was given (or allocated). -/
def mk_headers (target_tenant_id : Option String) (heap : HeaderHeap)
    (headers : Option Nat) : HeaderHeap × Nat :=
  let alloc :=
    match headers with
    | none => (heap ++ [[]], heap.length)
    | some r => (heap, r)
  match target_tenant_id with
  | none => alloc
  | some t =>
    (alloc.1.set alloc.2 (dictSet (alloc.1.getD alloc.2 []) TARGET_TENANT_ID t),
     alloc.2)

theorem find_map_overwrite (k v : String) :
    ∀ d : Dict, d.any (fun p => p.1 = k) = true →
      (d.map (fun p => if p.1 = k then (k, v) else p)).find?
          (fun p => p.1 = k) = some (k, v)
  | [], h => by simp at h
  | hd :: tl, h => by
    by_cases hk : hd.1 = k
    · simp [List.find?, hk]
    · have htl : tl.any (fun p => p.1 = k) = true := by
        simpa [List.any_cons, hk] using h
      simpa [List.find?, hk] using find_map_overwrite k v tl htl

theorem find_append_new (k v : String) :
    ∀ d : Dict, d.any (fun p => p.1 = k) = false →
      (d ++ [(k, v)]).find? (fun p => p.1 = k) = some (k, v)
  | [], _ => by simp [List.find?]
  | hd :: tl, h => by
    have hk : (hd.1 = k) = False := by
      by_cases hk : hd.1 = k <;> simp_all [List.any_cons]
    have htl : tl.any (fun p => p.1 = k) = false := by
      simpa [List.any_cons, hk] using h
    simpa [List.find?, hk] using find_append_new k v tl htl

/-- Dict assignment really lands: after `d[k] = v`, looking up `k` yields
`v`, whether the key was added or overwritten. -/
theorem dictLookup_dictSet (d : Dict) (k v : String) :
    dictLookup (dictSet d k v) k = some v := by
  by_cases h : d.any (fun p => p.1 = k)
  · rw [dictSet, if_pos h, dictLookup, find_map_overwrite k v d h]
    rfl
  · have hf : d.any (fun p => p.1 = k) = false := by
      rwa [Bool.not_eq_true] at h
    rw [dictSet, if_neg h, dictLookup, find_append_new k v d hf]
    rfl

theorem set_at_fresh_cell (heap : List Dict) (x : Dict) :
    (heap ++ [[]]).set heap.length x = heap ++ [x] := by
  induction heap with
  | nil => rfl
  | cons hd tl ih => simp [List.set, ih]

theorem getD_at_fresh_cell (heap : List Dict) :
    (heap ++ [([] : Dict)]).getD heap.length [] = [] := by
  induction heap with
  | nil => rfl
  | cons hd tl ih => simp [List.getD]

/-- C10: `mk_headers` mutates the caller-supplied dictionary in place and
returns that same object (the returned address equals the argument's
address): with a target tenant id the `TargetTenantID` key is assigned
into the caller's dictionary — added or overwritten, and a lookup then
yields the tenant id — and every other heap cell is untouched (`List.set`
frame); without a target tenant id the heap is returned unchanged. When
no dictionary is supplied, a fresh dictionary is allocated and returned,
containing exactly the `TargetTenantID` entry if a target tenant id is
set and nothing otherwise. -/
theorem C10_mk_headers :
    (∀ (heap : HeaderHeap) (r : Nat), mk_headers none heap (some r) = (heap, r))
      ∧ (∀ (heap : HeaderHeap) (r : Nat) (t : String),
          (mk_headers (some t) heap (some r)).2 = r
            ∧ (mk_headers (some t) heap (some r)).1
                = heap.set r (dictSet (heap.getD r []) TARGET_TENANT_ID t))
      ∧ (∀ heap : HeaderHeap,
          mk_headers none heap none = (heap ++ [[]], heap.length))
      ∧ (∀ (heap : HeaderHeap) (t : String),
          mk_headers (some t) heap none
            = (heap ++ [[(TARGET_TENANT_ID, t)]], heap.length))
      ∧ ∀ (d : Dict) (t : String),
          dictLookup (dictSet d TARGET_TENANT_ID t) TARGET_TENANT_ID = some t := by
  refine ⟨fun _ _ => rfl, fun _ _ _ => ⟨rfl, rfl⟩, fun _ => rfl, ?_, ?_⟩
  · intro heap t
    have hset := set_at_fresh_cell heap (dictSet [] TARGET_TENANT_ID t)
    have hget := getD_at_fresh_cell heap
    simp only [mk_headers, hget]
    rw [hset]
    rfl
  · intro d t
    exact dictLookup_dictSet d TARGET_TENANT_ID t
